import Mathlib

/-!
Shallow embedding of the stepper-motor subdevice driver
(src/subdevices/flink_steppermotor.py) of the flink python repository.

Register-backed channel state is modelled as a record of the per-channel
hardware registers; every operation returns the resulting state together
with the list of register writes it issued, in order, and an optional
error.  The underlying transport (the C library calls) is modelled as
always succeeding, since all claims under study concern the validation
and sequencing logic of the python layer, not transport failures.

Machine integers: registers are 32-bit unsigned; a write of value v
stores v mod 2^32 (the behaviour of ctypes c_uint32 on out-of-range or
negative python ints).  Python floats are modelled by the rationals.

The single python exception type FlinkException is classified by raise
site following the taxonomy of the spec, section 7: precondition checks
on the running state raise illegalState, argument validation raises
invalidArgument.
-/

namespace FlinkStepperMotor

/-- Error taxonomy of the spec, section 7, restricted to the errors the
python validation logic can raise itself. -/
inductive Err where
  | illegalState
  | invalidArgument
deriving DecidableEq, Repr

/-- One register write as seen by the hardware: either an atomic
set/reset of a bit mask in the local configuration register, or a plain
word write to one of the four data registers.  The stored value is the
value the hardware receives (already reduced mod 2^32). -/
inductive Event where
  | wSetBits (mask : ℕ)
  | wResetBits (mask : ℕ)
  | wPrescalerStart (v : ℕ)
  | wPrescalerTop (v : ℕ)
  | wAcceleration (v : ℕ)
  | wStepsToDo (v : ℕ)
deriving DecidableEq, Repr

/-- The hardware-resident registers of one motor channel. -/
structure ChannelState where
  confReg : ℕ
  prescalerStart : ℕ
  prescalerTop : ℕ
  acceleration : ℕ
  stepsToDo : ℕ
  stepsHaveDone : ℕ
deriving DecidableEq, Repr

/-- Result of one driver operation: optional error (the python exception,
if raised), the channel state when the call returns or raises, and the
ordered list of register writes issued before returning or raising. -/
structure MotorResult where
  err : Option Err
  state : ChannelState
  trace : List Event
deriving DecidableEq, Repr

/-- Result of a pure unit-conversion function (python: return value or
raised FlinkException). -/
inductive CalcResult (α : Type) where
  | ok (v : α)
  | error (e : Err)
deriving DecidableEq, Repr

/- Bit positions of the local configuration register
(class LocalConfReg in the source). -/
namespace LocalConfReg

def DIRECTION : ℕ := 0

def STEP_MODE : ℕ := 1

def PHASE_MODE : ℕ := 2

def RUN_MODE_0 : ℕ := 3

def RUN_MODE_1 : ℕ := 4

def START : ℕ := 5

def RESET_STEPS : ℕ := 6

end LocalConfReg

/-- Run modes (class RunMode in the source). -/
inductive RunMode where
  | DISABLED
  | STEPPING
  | FIXED_SPEED
  | RESERVED
deriving DecidableEq, Repr

/-- Numeric value of each run mode, as in the python enum. -/
def RunMode.val : RunMode → ℕ
  | .DISABLED => 0
  | .STEPPING => 1
  | .FIXED_SPEED => 2
  | .RESERVED => 3

/-- Motor directions (class Direction in the source). -/
inductive Direction where
  | CLOCKWISE
  | COUNTER_CLOCKWISE
deriving DecidableEq, Repr

/-- Numeric value of each direction, as in the python enum. -/
def Direction.val : Direction → ℕ
  | .CLOCKWISE => 1
  | .COUNTER_CLOCKWISE => 0

/-- Step modes (class StepMode in the source). -/
inductive StepMode where
  | FULL_STEPS
  | HALF_STEPS
deriving DecidableEq, Repr

/-- Numeric value of each step mode, as in the python enum. -/
def StepMode.val : StepMode → ℕ
  | .FULL_STEPS => 1
  | .HALF_STEPS => 0

/-- Phase modes (class PhaseMode in the source). -/
inductive PhaseMode where
  | TWO_PHASE
  | ONE_PHASE
deriving DecidableEq, Repr

/-- Numeric value of each phase mode, as in the python enum. -/
def PhaseMode.val : PhaseMode → ℕ
  | .TWO_PHASE => 1
  | .ONE_PHASE => 0

/-- Atomic OR of a mask into a 32-bit configuration word
(flink_stepperMotor_set_local_config_reg_bits_atomic). -/
def confSetBits (c mask : ℕ) : ℕ := c ||| mask

/-- Atomic AND-NOT of a mask on a 32-bit configuration word
(flink_stepperMotor_reset_local_config_reg_bits_atomic). -/
def confResetBits (c mask : ℕ) : ℕ := c &&& ((2 ^ 32 - 1) ^^^ mask)

/-- Transport primitive: atomic set of a bit mask in the local
configuration register, with the event it emits. -/
def setBitsAtomicRaw (s : ChannelState) (mask : ℕ) : ChannelState × Event :=
  ({ s with confReg := confSetBits s.confReg mask }, Event.wSetBits mask)

/-- Transport primitive: atomic reset of a bit mask in the local
configuration register, with the event it emits. -/
def resetBitsAtomicRaw (s : ChannelState) (mask : ℕ) : ChannelState × Event :=
  ({ s with confReg := confResetBits s.confReg mask }, Event.wResetBits mask)

/-- Source method _setStartSpeed: writes the start prescaler register. -/
def setStartSpeedRaw (s : ChannelState) (prescaler : ℕ) : ChannelState × Event :=
  ({ s with prescalerStart := prescaler % 2 ^ 32 }, Event.wPrescalerStart (prescaler % 2 ^ 32))

/-- Source method _setSollSpeed: writes the soll (top) prescaler register. -/
def setSollSpeedRaw (s : ChannelState) (prescaler : ℕ) : ChannelState × Event :=
  ({ s with prescalerTop := prescaler % 2 ^ 32 }, Event.wPrescalerTop (prescaler % 2 ^ 32))

/-- Source method _setAcceleration: writes the acceleration register.
The python int may be negative; ctypes c_uint32 reduces it mod 2^32. -/
def setAccelerationRaw (s : ChannelState) (acceleration : ℤ) : ChannelState × Event :=
  ({ s with acceleration := (acceleration % (2 ^ 32 : ℤ)).toNat },
    Event.wAcceleration ((acceleration % (2 ^ 32 : ℤ)).toNat))

/-- Source method setStepsToDo register write. -/
def setStepsToDoRaw (s : ChannelState) (stepps : ℕ) : ChannelState × Event :=
  ({ s with stepsToDo := stepps % 2 ^ 32 }, Event.wStepsToDo (stepps % 2 ^ 32))

/-- Wraps one successful primitive write as a MotorResult. -/
def liftW (p : ChannelState × Event) : MotorResult := ⟨none, p.1, [p.2]⟩

/-- Sequencing with python exception semantics: if the first part raised,
the rest is not executed and the writes already issued persist. -/
def MotorResult.andThen (r : MotorResult) (f : ChannelState → MotorResult) : MotorResult :=
  match r.err with
  | some _ => r
  | none =>
    let r2 := f r.state
    ⟨r2.err, r2.state, r.trace ++ r2.trace⟩

/-- Source method _calculatePrescaler: validates the speed, then returns
the truncated quotient of the base clock by the speed, never below 1.
For positive speed the python int() truncation equals the floor. -/
def calculatePrescaler (BC : ℕ) (speed : ℚ) : CalcResult ℕ :=
  if speed ≤ 0 then .error .invalidArgument
  else
    let prescaler : ℕ := (⌊(BC : ℚ) / speed⌋).toNat
    if prescaler > 0 then .ok prescaler else .ok 1

/-- Source method _calculateAccelerationFromSteps: validates all three
arguments, then returns the ceiling of (start - soll) / steps. -/
def calculateAccelerationFromSteps (prescaler_start prescaler_soll : ℤ) (steps : ℚ) :
    CalcResult ℤ :=
  if prescaler_start < 1 ∨ prescaler_soll < 1 ∨ steps < 1 then .error .invalidArgument
  else .ok ⌈((prescaler_start : ℚ) - (prescaler_soll : ℚ)) / steps⌉

/-- Source method _setBit: atomic set or reset of a single mask depending
on the bit value; any other value is rejected. -/
def setBit (s : ChannelState) (bit maskBit : ℕ) : MotorResult :=
  if bit = 0 then liftW (resetBitsAtomicRaw s maskBit)
  else if bit = 1 then liftW (setBitsAtomicRaw s maskBit)
  else ⟨some .invalidArgument, s, []⟩

/-- Source method _setTwoBits: writes a two-bit field with one or two
atomic operations, dispatching on the target value alone. -/
def setTwoBits (s : ChannelState) (numberToSet maskBit_0 maskBit_1 : ℕ) : MotorResult :=
  if numberToSet = 0 then liftW (resetBitsAtomicRaw s (maskBit_0 ||| maskBit_1))
  else if numberToSet = 1 then
    (liftW (setBitsAtomicRaw s maskBit_0)).andThen fun t =>
      liftW (resetBitsAtomicRaw t maskBit_1)
  else if numberToSet = 2 then
    (liftW (resetBitsAtomicRaw s maskBit_0)).andThen fun t =>
      liftW (setBitsAtomicRaw t maskBit_1)
  else if numberToSet = 3 then liftW (setBitsAtomicRaw s (maskBit_0 ||| maskBit_1))
  else ⟨some .invalidArgument, s, []⟩

/-- Source method setRunMode: writes the two run-mode bits for the three
legal modes and rejects the reserved mode before any write. -/
def setRunMode (s : ChannelState) (runMode : RunMode) : MotorResult :=
  let maskRunBit_0 := 1 <<< LocalConfReg.RUN_MODE_0
  let maskRunBit_1 := 1 <<< LocalConfReg.RUN_MODE_1
  if runMode = RunMode.DISABLED then
    setTwoBits s RunMode.DISABLED.val maskRunBit_0 maskRunBit_1
  else if runMode = RunMode.STEPPING then
    setTwoBits s RunMode.STEPPING.val maskRunBit_0 maskRunBit_1
  else if runMode = RunMode.FIXED_SPEED then
    setTwoBits s RunMode.FIXED_SPEED.val maskRunBit_0 maskRunBit_1
  else ⟨some .invalidArgument, s, []⟩

/-- Source method setDirection. -/
def setDirection (s : ChannelState) (direction : Direction) : MotorResult :=
  let mask := 1 <<< LocalConfReg.DIRECTION
  if direction = Direction.CLOCKWISE then setBit s Direction.CLOCKWISE.val mask
  else setBit s Direction.COUNTER_CLOCKWISE.val mask

/-- Source method setStepMode. -/
def setStepMode (s : ChannelState) (stepMode : StepMode) : MotorResult :=
  let mask := 1 <<< LocalConfReg.STEP_MODE
  if stepMode = StepMode.FULL_STEPS then setBit s StepMode.FULL_STEPS.val mask
  else setBit s StepMode.HALF_STEPS.val mask

/-- Source method setPhaseMode. -/
def setPhaseMode (s : ChannelState) (phaseMode : PhaseMode) : MotorResult :=
  let mask := 1 <<< LocalConfReg.PHASE_MODE
  if phaseMode = PhaseMode.ONE_PHASE then setBit s PhaseMode.ONE_PHASE.val mask
  else setBit s PhaseMode.TWO_PHASE.val mask

/-- Source method setStepsToDo. -/
def setStepsToDo (s : ChannelState) (stepps : ℕ) : MotorResult :=
  liftW (setStepsToDoRaw s stepps)

/-- Source method isMotorRunning: truthiness of the start bit. -/
def isMotorRunning (s : ChannelState) : Bool :=
  ((s.confReg &&& (1 <<< LocalConfReg.START)) >>> LocalConfReg.START) != 0

/-- The two-bit run-mode field extracted from a configuration word, as
computed by getRunMode in the source (mask bits 3-4, shift down by 3). -/
def runModeField (c : ℕ) : ℕ :=
  (c &&& ((1 <<< LocalConfReg.RUN_MODE_0) ||| (1 <<< LocalConfReg.RUN_MODE_1))) >>>
    LocalConfReg.RUN_MODE_0

/-- Source method getRunMode: total decode of the run-mode field. -/
def getRunMode (s : ChannelState) : RunMode :=
  let config := runModeField s.confReg
  if config = RunMode.DISABLED.val then RunMode.DISABLED
  else if config = RunMode.STEPPING.val then RunMode.STEPPING
  else if config = RunMode.FIXED_SPEED.val then RunMode.FIXED_SPEED
  else RunMode.RESERVED

/-- Source method initMotor: precondition check, unit conversions, then
the eight configuration writes in source order. -/
def initMotor (BC : ℕ) (s : ChannelState) (runMode : RunMode)
    (startSpeed sollSpeed acc_steps : ℚ) (steppsToDo : ℕ)
    (direction : Direction) (stepMode : StepMode) (phaseMode : PhaseMode) : MotorResult :=
  if isMotorRunning s then ⟨some .illegalState, s, []⟩
  else
    match calculatePrescaler BC startSpeed with
    | .error e => ⟨some e, s, []⟩
    | .ok pre_start =>
      match calculatePrescaler BC sollSpeed with
      | .error e => ⟨some e, s, []⟩
      | .ok pre_soll =>
        match calculateAccelerationFromSteps (pre_start : ℤ) (pre_soll : ℤ) acc_steps with
        | .error e => ⟨some e, s, []⟩
        | .ok acc_raw =>
          (((((((setRunMode s runMode).andThen fun t =>
            liftW (setStartSpeedRaw t pre_start)).andThen fun t =>
            liftW (setSollSpeedRaw t pre_soll)).andThen fun t =>
            liftW (setAccelerationRaw t acc_raw)).andThen fun t =>
            setStepsToDo t steppsToDo).andThen fun t =>
            setDirection t direction).andThen fun t =>
            setStepMode t stepMode).andThen fun t =>
            setPhaseMode t phaseMode

/-- Source method changeSollSpeedWhileRunning: requires the running
state, recomputes the soll prescaler and the acceleration from the
current start prescaler, writes acceleration first, then soll speed. -/
def changeSollSpeedWhileRunning (BC : ℕ) (s : ChannelState)
    (sollSpeed acceleration : ℚ) : MotorResult :=
  if !isMotorRunning s then ⟨some .illegalState, s, []⟩
  else
    match calculatePrescaler BC sollSpeed with
    | .error e => ⟨some e, s, []⟩
    | .ok pre_soll =>
      match calculateAccelerationFromSteps (s.prescalerStart : ℤ) (pre_soll : ℤ) acceleration with
      | .error e => ⟨some e, s, []⟩
      | .ok acc_raw =>
        (liftW (setAccelerationRaw s acc_raw)).andThen fun t =>
          liftW (setSollSpeedRaw t pre_soll)

/-- Source method updateSpeeds: requires the stopped state, recomputes
both prescalers and the acceleration, then writes start prescaler, soll
prescaler, acceleration. -/
def updateSpeeds (BC : ℕ) (s : ChannelState)
    (startSpeed sollSpeed acceleration : ℚ) : MotorResult :=
  if isMotorRunning s then ⟨some .illegalState, s, []⟩
  else
    match calculatePrescaler BC startSpeed with
    | .error e => ⟨some e, s, []⟩
    | .ok pre_start =>
      match calculatePrescaler BC sollSpeed with
      | .error e => ⟨some e, s, []⟩
      | .ok pre_soll =>
        match calculateAccelerationFromSteps (pre_start : ℤ) (pre_soll : ℤ) acceleration with
        | .error e => ⟨some e, s, []⟩
        | .ok acc_raw =>
          ((liftW (setStartSpeedRaw s pre_start)).andThen fun t =>
            liftW (setSollSpeedRaw t pre_soll)).andThen fun t =>
            liftW (setAccelerationRaw t acc_raw)

/-- Source method stop: optionally recomputes and writes the
acceleration (only when an acceleration argument is given and the
current run mode is fixed speed), then atomically clears the start bit. -/
def stop (s : ChannelState) (acceleration : Option ℚ) : MotorResult :=
  let mode := getRunMode s
  match acceleration with
  | some acc =>
    if mode = RunMode.FIXED_SPEED then
      match calculateAccelerationFromSteps (s.prescalerStart : ℤ) (s.prescalerTop : ℤ) acc with
      | .error e => ⟨some e, s, []⟩
      | .ok acc_raw =>
        (liftW (setAccelerationRaw s acc_raw)).andThen fun t =>
          liftW (resetBitsAtomicRaw t (1 <<< LocalConfReg.START))
    else liftW (resetBitsAtomicRaw s (1 <<< LocalConfReg.START))
  | none => liftW (resetBitsAtomicRaw s (1 <<< LocalConfReg.START))

/-- Effect of one trace event on a configuration word: only the atomic
bit operations touch it. -/
def applyConfEvent (c : ℕ) : Event → ℕ
  | .wSetBits m => confSetBits c m
  | .wResetBits m => confResetBits c m
  | .wPrescalerStart _ => c
  | .wPrescalerTop _ => c
  | .wAcceleration _ => c
  | .wStepsToDo _ => c

/-- The successive configuration-word values after each event of a
trace, the initial (prior) value excluded. -/
def confStatesAfter (c : ℕ) (evs : List Event) : List ℕ :=
  (evs.scanl applyConfEvent c).drop 1

/-- Which register field a local-configuration bit mask addresses. -/
inductive RegField where
  | directionF
  | stepModeF
  | phaseModeF
  | runModeF
  | startF
  | resetStepsF
  | otherConfF
  | prescalerStartF
  | prescalerTopF
  | accelerationF
  | stepsToDoF
deriving DecidableEq, Repr

/-- Classifies a bit mask of the local configuration register by the
field it addresses. -/
def maskField (m : ℕ) : RegField :=
  if m = 1 <<< LocalConfReg.DIRECTION then .directionF
  else if m = 1 <<< LocalConfReg.STEP_MODE then .stepModeF
  else if m = 1 <<< LocalConfReg.PHASE_MODE then .phaseModeF
  else if m = 1 <<< LocalConfReg.RUN_MODE_0 ∨ m = 1 <<< LocalConfReg.RUN_MODE_1 ∨
      m = ((1 <<< LocalConfReg.RUN_MODE_0) ||| (1 <<< LocalConfReg.RUN_MODE_1)) then .runModeF
  else if m = 1 <<< LocalConfReg.START then .startF
  else if m = 1 <<< LocalConfReg.RESET_STEPS then .resetStepsF
  else .otherConfF

/-- Classifies a trace event by the register (field) it writes. -/
def eventField : Event → RegField
  | .wSetBits m => maskField m
  | .wResetBits m => maskField m
  | .wPrescalerStart _ => .prescalerStartF
  | .wPrescalerTop _ => .prescalerTopF
  | .wAcceleration _ => .accelerationF
  | .wStepsToDo _ => .stepsToDoF

/-!  Helper lemmas. -/

lemma nat_and_or (a b c : ℕ) : a &&& (b ||| c) = (a &&& b) ||| (a &&& c) := by
  apply Nat.eq_of_testBit_eq
  intro i
  simp [Nat.testBit_land, Nat.testBit_lor, Bool.and_or_distrib_left]

lemma runModeField_eq (c : ℕ) :
    runModeField c = (c.testBit 3).toNat + 2 * (c.testBit 4).toNat := by
  have h0 : runModeField c = (c &&& (8 ||| 16)) >>> 3 := rfl
  have h3 : c &&& 8 = (c.testBit 3).toNat * 8 := by simpa using Nat.and_two_pow c 3
  have h4 : c &&& 16 = (c.testBit 4).toNat * 16 := by simpa using Nat.and_two_pow c 4
  rw [h0, nat_and_or, h3, h4]
  cases hb3 : c.testBit 3 <;> cases hb4 : c.testBit 4 <;> decide

lemma runModeField_lt_four (c : ℕ) : runModeField c < 4 := by
  rw [runModeField_eq]
  cases c.testBit 3 <;> cases c.testBit 4 <;> decide

lemma runModeField_eq_three_iff (c : ℕ) :
    runModeField c = 3 ↔ (c.testBit 3 = true ∧ c.testBit 4 = true) := by
  rw [runModeField_eq]
  cases hb3 : c.testBit 3 <;> cases hb4 : c.testBit 4 <;> simp

lemma isMotorRunning_eq_testBit (s : ChannelState) :
    isMotorRunning s = s.confReg.testBit 5 := by
  have h : s.confReg &&& (1 <<< LocalConfReg.START) = (s.confReg.testBit 5).toNat * 32 := by
    simpa [LocalConfReg.START] using Nat.and_two_pow s.confReg 5
  rw [isMotorRunning, h]
  cases hb : s.confReg.testBit 5 <;> simp [LocalConfReg.START]

lemma testBit_confSetBits (c m i : ℕ) :
    (confSetBits c m).testBit i = (c.testBit i || m.testBit i) := by
  simp [confSetBits, Nat.testBit_lor]

lemma testBit_confResetBits (c m i : ℕ) :
    (confResetBits c m).testBit i = (c.testBit i && ((2 ^ 32 - 1) ^^^ m).testBit i) := by
  simp [confResetBits, Nat.testBit_land]

lemma calculatePrescaler_pos (BC : ℕ) (v : ℚ) (hv : ¬v ≤ 0) :
    ∃ p : ℕ, calculatePrescaler BC v = .ok p ∧ 1 ≤ p := by
  simp only [calculatePrescaler, if_neg hv]
  by_cases h : (⌊(BC : ℚ) / v⌋).toNat > 0
  · exact ⟨_, by rw [if_pos h], h⟩
  · exact ⟨1, by rw [if_neg h], le_refl 1⟩

/-!  Claim theorems. -/

/-- Claim C4: for every speed greater than zero, calculatePrescaler
returns the floor of BC divided by the speed, clamped to a minimum of 1
(so the result is at least 1 even when the floor would be 0); for every
speed less than or equal to zero it fails with invalidArgument and
returns no value. -/
theorem calculatePrescaler_spec (BC : ℕ) (speed : ℚ) :
    (0 < speed →
      calculatePrescaler BC speed = .ok (max 1 (Int.toNat ⌊(BC : ℚ) / speed⌋)) ∧
      1 ≤ max 1 (Int.toNat ⌊(BC : ℚ) / speed⌋)) ∧
    (speed ≤ 0 → calculatePrescaler BC speed = .error .invalidArgument) := by
  constructor
  · intro h
    have hns : ¬speed ≤ 0 := not_le.mpr h
    refine ⟨?_, le_max_left _ _⟩
    simp only [calculatePrescaler, if_neg hns]
    by_cases hp0 : (⌊(BC : ℚ) / speed⌋).toNat > 0
    · rw [if_pos hp0]
      congr 1
      omega
    · rw [if_neg hp0]
      congr 1
      omega
  · intro h
    simp [calculatePrescaler, h]

/-- Claim C4 witness: calculatePrescaler at the concrete speeds 100
(positive) and -5 (rejected). -/
theorem calculatePrescaler_spec_witness :
    ((0 : ℚ) < 100 ∧
      calculatePrescaler 1000000 100 = .ok (max 1 (Int.toNat ⌊(1000000 : ℚ) / 100⌋))) ∧
    ((-5 : ℚ) ≤ 0 ∧ calculatePrescaler 1000000 (-5) = .error .invalidArgument) :=
  ⟨⟨by norm_num, ((calculatePrescaler_spec 1000000 100).1 (by norm_num)).1⟩,
   ⟨by norm_num, (calculatePrescaler_spec 1000000 (-5)).2 (by norm_num)⟩⟩

/-- Claim C5: calculateAccelerationFromSteps fails with invalidArgument
exactly when one of its three arguments is below 1, and otherwise
returns the ceiling of (prescalerStart - prescalerSoll) / steps; with
base clock 1000000 Hz, the speeds 100 and 1000 give the prescalers
10000 and 1000, and 50 acceleration steps give the raw acceleration
ceil((10000 - 1000) / 50) = 180. -/
theorem calculateAccelerationFromSteps_spec (a b : ℤ) (steps : ℚ) :
    (calculateAccelerationFromSteps a b steps = .error .invalidArgument ↔
      (a < 1 ∨ b < 1 ∨ steps < 1)) ∧
    (¬(a < 1 ∨ b < 1 ∨ steps < 1) →
      calculateAccelerationFromSteps a b steps = .ok ⌈((a : ℚ) - (b : ℚ)) / steps⌉) ∧
    calculatePrescaler 1000000 100 = .ok 10000 ∧
    calculatePrescaler 1000000 1000 = .ok 1000 ∧
    calculateAccelerationFromSteps 10000 1000 50 = .ok 180 := by
  refine ⟨?_, ?_, ?_, ?_, ?_⟩
  · by_cases h : a < 1 ∨ b < 1 ∨ steps < 1 <;> simp [calculateAccelerationFromSteps, h]
  · intro h
    simp [calculateAccelerationFromSteps, h]
  · norm_num [calculatePrescaler] <;> decide
  · norm_num [calculatePrescaler] <;> decide
  · norm_num [calculateAccelerationFromSteps]

/-- Claim C5 witness: the success branch applied at the concrete
arguments 10000, 1000 and 50. -/
theorem calculateAccelerationFromSteps_spec_witness :
    ¬((10000 : ℤ) < 1 ∨ (1000 : ℤ) < 1 ∨ (50 : ℚ) < 1) ∧
    calculateAccelerationFromSteps 10000 1000 50 = .ok ⌈((10000 : ℚ) - 1000) / 50⌉ :=
  ⟨by norm_num, (calculateAccelerationFromSteps_spec 10000 1000 50).2.1 (by norm_num)⟩

/-- Claim C6: setRunMode on the reserved run mode fails with
invalidArgument without issuing any register write (empty trace, state
unchanged), and on every one of the three legal run modes it raises no
error. -/
theorem setRunMode_reserved_spec (s : ChannelState) :
    setRunMode s RunMode.RESERVED = ⟨some .invalidArgument, s, []⟩ ∧
    ∀ m : RunMode, m ≠ RunMode.RESERVED → (setRunMode s m).err = none := by
  constructor
  · simp [setRunMode]
  · intro m hm
    cases m <;>
      simp_all [setRunMode, setTwoBits, RunMode.val, liftW, MotorResult.andThen,
        setBitsAtomicRaw, resetBitsAtomicRaw]

/-- Claim C6 witness: setRunMode at a concrete state for the reserved
mode and for the legal mode DISABLED. -/
theorem setRunMode_reserved_spec_witness :
    setRunMode ⟨0, 0, 0, 0, 0, 0⟩ RunMode.RESERVED =
      ⟨some .invalidArgument, ⟨0, 0, 0, 0, 0, 0⟩, []⟩ ∧
    RunMode.DISABLED ≠ RunMode.RESERVED ∧
    (setRunMode ⟨0, 0, 0, 0, 0, 0⟩ RunMode.DISABLED).err = none :=
  ⟨(setRunMode_reserved_spec ⟨0, 0, 0, 0, 0, 0⟩).1, by decide,
    (setRunMode_reserved_spec ⟨0, 0, 0, 0, 0, 0⟩).2 RunMode.DISABLED (by decide)⟩

/-- Claim C10: getRunMode is total on every 32-bit configuration value:
the run-mode field (bits 3-4) is always in 0..3 and decodes to DISABLED
for 0, STEPPING for 1, FIXED_SPEED for 2, and the RESERVED variant
(rather than an error) for the reserved pattern 3. -/
theorem getRunMode_total (c : ℕ) (hc : c < 2 ^ 32) :
    runModeField c < 4 ∧
    (runModeField c = 0 → getRunMode ⟨c, 0, 0, 0, 0, 0⟩ = RunMode.DISABLED) ∧
    (runModeField c = 1 → getRunMode ⟨c, 0, 0, 0, 0, 0⟩ = RunMode.STEPPING) ∧
    (runModeField c = 2 → getRunMode ⟨c, 0, 0, 0, 0, 0⟩ = RunMode.FIXED_SPEED) ∧
    (runModeField c = 3 → getRunMode ⟨c, 0, 0, 0, 0, 0⟩ = RunMode.RESERVED) := by
  refine ⟨runModeField_lt_four c, ?_, ?_, ?_, ?_⟩ <;>
    · intro h
      simp [getRunMode, h, RunMode.val]

/-- Claim C10 witness: the configuration value 24 (bits 3-4 both set)
decodes to the RESERVED run mode. -/
theorem getRunMode_total_witness :
    (24 : ℕ) < 2 ^ 32 ∧ runModeField 24 = 3 ∧
    getRunMode ⟨24, 0, 0, 0, 0, 0⟩ = RunMode.RESERVED :=
  ⟨by decide, by decide, (getRunMode_total 24 (by decide)).2.2.2.2 (by decide)⟩

/-- Claim C3 counterexample: on a channel whose configuration register
holds 16 (run mode FIXED_SPEED, a legal non-reserved value), setRunMode
to the legal target STEPPING makes the run-mode field hold the reserved
pattern 3 after the first of its two atomic operations: the operations
are chosen from the target value alone, not from which bits differ. -/
theorem setRunMode_transient_reserved_cex :
    RunMode.STEPPING ≠ RunMode.RESERVED ∧
    runModeField 16 ≠ 3 ∧
    ((confStatesAfter 16 (setRunMode ⟨16, 0, 0, 0, 0, 0⟩ RunMode.STEPPING).trace).any
      fun c => runModeField c == 3) = true := by
  decide

/-- Claim C3 amended: for the targets DISABLED and FIXED_SPEED the
run-mode field never holds the reserved pattern 3 after any issued
atomic operation, whatever the prior register value; for the target
STEPPING the same holds provided bit 4 of the prior value is clear
(when bit 4 is set, the field transiently holds 3 between the two
operations). -/
theorem setRunMode_no_transient_reserved (s : ChannelState) (m : RunMode)
    (hm : m ≠ RunMode.RESERVED)
    (h4 : m = RunMode.STEPPING → s.confReg.testBit 4 = false) :
    ∀ st ∈ confStatesAfter s.confReg (setRunMode s m).trace, runModeField st ≠ 3 := by
  have k3 : (4294967287 : ℕ).testBit 3 = false := by decide
  have k4 : (4294967279 : ℕ).testBit 4 = false := by decide
  have k24 : (4294967271 : ℕ).testBit 3 = false := by decide
  have t84 : (8 : ℕ).testBit 4 = false := by decide
  have t163 : (16 : ℕ).testBit 3 = false := by decide
  cases m with
  | RESERVED => exact absurd rfl hm
  | DISABLED =>
    have htr : (setRunMode s RunMode.DISABLED).trace = [Event.wResetBits 24] := by
      simp [setRunMode, setTwoBits, RunMode.val, liftW, resetBitsAtomicRaw,
        LocalConfReg.RUN_MODE_0, LocalConfReg.RUN_MODE_1]
    rw [htr]
    intro st hst
    simp [confStatesAfter, applyConfEvent] at hst
    subst hst
    rw [Ne, runModeField_eq_three_iff]
    rintro ⟨h3, -⟩
    simp [testBit_confResetBits, k24] at h3
  | STEPPING =>
    have hb4 : s.confReg.testBit 4 = false := h4 rfl
    have htr : (setRunMode s RunMode.STEPPING).trace =
        [Event.wSetBits 8, Event.wResetBits 16] := by
      simp [setRunMode, setTwoBits, RunMode.val, liftW, MotorResult.andThen,
        setBitsAtomicRaw, resetBitsAtomicRaw,
        LocalConfReg.RUN_MODE_0, LocalConfReg.RUN_MODE_1]
    rw [htr]
    intro st hst
    simp [confStatesAfter, applyConfEvent] at hst
    rcases hst with hst | hst <;> subst hst <;>
      · rw [Ne, runModeField_eq_three_iff]
        rintro ⟨-, hb⟩
        simp [testBit_confResetBits, testBit_confSetBits, hb4, t84, k4] at hb
  | FIXED_SPEED =>
    have htr : (setRunMode s RunMode.FIXED_SPEED).trace =
        [Event.wResetBits 8, Event.wSetBits 16] := by
      simp [setRunMode, setTwoBits, RunMode.val, liftW, MotorResult.andThen,
        setBitsAtomicRaw, resetBitsAtomicRaw,
        LocalConfReg.RUN_MODE_0, LocalConfReg.RUN_MODE_1]
    rw [htr]
    intro st hst
    simp [confStatesAfter, applyConfEvent] at hst
    rcases hst with hst | hst <;> subst hst <;>
      · rw [Ne, runModeField_eq_three_iff]
        rintro ⟨hb, -⟩
        simp [testBit_confResetBits, testBit_confSetBits, k3, t163] at hb

/-- Claim C3 amended witness: from the prior value 0 (bit 4 clear) the
first atomic operation of setRunMode to STEPPING leaves the run-mode
field below the reserved pattern. -/
theorem setRunMode_no_transient_reserved_witness :
    RunMode.STEPPING ≠ RunMode.RESERVED ∧
    (0 : ℕ).testBit 4 = false ∧
    runModeField (confSetBits 0 8) ≠ 3 :=
  ⟨by decide, by decide,
    setRunMode_no_transient_reserved ⟨0, 0, 0, 0, 0, 0⟩ RunMode.STEPPING (by decide)
      (fun _ => by decide) (confSetBits 0 8) (by decide)⟩

/-- Claim C2: changeSollSpeedWhileRunning requires the channel to be
running: invoked on a stopped channel it fails with illegalState and
writes neither the acceleration register nor the soll-speed register
(empty trace, state unchanged); when running, it recomputes the soll
prescaler from the soll speed and the raw acceleration from the current
start prescaler, and writes the acceleration register strictly before
the soll-speed register. -/
theorem changeSollSpeedWhileRunning_spec (BC : ℕ) (s : ChannelState)
    (sollSpeed acceleration : ℚ) :
    (isMotorRunning s = false →
      changeSollSpeedWhileRunning BC s sollSpeed acceleration = ⟨some .illegalState, s, []⟩) ∧
    (isMotorRunning s = true → ∀ p a,
      calculatePrescaler BC sollSpeed = .ok p →
      calculateAccelerationFromSteps (s.prescalerStart : ℤ) (p : ℤ) acceleration = .ok a →
      changeSollSpeedWhileRunning BC s sollSpeed acceleration =
        ⟨none,
          { s with acceleration := (a % (2 ^ 32 : ℤ)).toNat, prescalerTop := p % 2 ^ 32 },
          [Event.wAcceleration ((a % (2 ^ 32 : ℤ)).toNat), Event.wPrescalerTop (p % 2 ^ 32)]⟩) := by
  constructor
  · intro h
    simp [changeSollSpeedWhileRunning, h]
  · intro h p a hp ha
    simp [changeSollSpeedWhileRunning, h, hp, ha, liftW, MotorResult.andThen,
      setAccelerationRaw, setSollSpeedRaw]

/-- Claim C2 witness: a stopped channel (start bit clear) rejects the
call without writes; a running channel with start prescaler 10000, soll
speed 1000 and 50 acceleration steps writes acceleration 180 before
soll prescaler 1000. -/
theorem changeSollSpeedWhileRunning_spec_witness :
    changeSollSpeedWhileRunning 1000000 ⟨0, 10000, 0, 0, 0, 0⟩ 1000 50 =
      ⟨some .illegalState, ⟨0, 10000, 0, 0, 0, 0⟩, []⟩ ∧
    changeSollSpeedWhileRunning 1000000 ⟨32, 10000, 0, 0, 0, 0⟩ 1000 50 =
      ⟨none, ⟨32, 10000, 1000, 180, 0, 0⟩,
        [Event.wAcceleration 180, Event.wPrescalerTop 1000]⟩ := by
  constructor
  · exact (changeSollSpeedWhileRunning_spec 1000000 ⟨0, 10000, 0, 0, 0, 0⟩ 1000 50).1 (by decide)
  · have h := (changeSollSpeedWhileRunning_spec 1000000 ⟨32, 10000, 0, 0, 0, 0⟩ 1000 50).2
      (by decide) 1000 180 (by norm_num [calculatePrescaler] <;> decide)
      (by norm_num [calculateAccelerationFromSteps])
    exact h.trans (by decide)

/-- Claim C7: stop with an explicit acceleration argument on a channel
in run mode FIXED_SPEED first recomputes a raw acceleration from the
current start and soll prescalers with the given step count, writes it
to the acceleration register, and then atomically clears the start bit;
in every other case (acceleration absent, or run mode not FIXED_SPEED)
the acceleration register is left unchanged and only the start bit is
cleared. -/
theorem stop_spec (s : ChannelState) (acc : ℚ) :
    (∀ a, getRunMode s = RunMode.FIXED_SPEED →
      calculateAccelerationFromSteps (s.prescalerStart : ℤ) (s.prescalerTop : ℤ) acc = .ok a →
      stop s (some acc) =
        ⟨none,
          { s with
              acceleration := (a % (2 ^ 32 : ℤ)).toNat
              confReg := confResetBits s.confReg 32 },
          [Event.wAcceleration ((a % (2 ^ 32 : ℤ)).toNat), Event.wResetBits 32]⟩) ∧
    (getRunMode s ≠ RunMode.FIXED_SPEED →
      stop s (some acc) =
        ⟨none, { s with confReg := confResetBits s.confReg 32 }, [Event.wResetBits 32]⟩) ∧
    stop s none =
      ⟨none, { s with confReg := confResetBits s.confReg 32 }, [Event.wResetBits 32]⟩ := by
  refine ⟨?_, ?_, ?_⟩
  · intro a hmode ha
    simp [stop, hmode, ha, liftW, MotorResult.andThen, setAccelerationRaw,
      resetBitsAtomicRaw, LocalConfReg.START]
  · intro hmode
    simp [stop, hmode, liftW, resetBitsAtomicRaw, LocalConfReg.START]
  · simp [stop, liftW, resetBitsAtomicRaw, LocalConfReg.START]

/-- Claim C7 witness: a fixed-speed running channel (configuration 48,
prescalers 10000 and 1000) stopping with 50 steps writes acceleration
180 then clears the start bit; a stepping channel (configuration 40)
stopping with 50 steps, and a fixed-speed channel stopping without an
argument, only clear the start bit and leave the acceleration register
unchanged. -/
theorem stop_spec_witness :
    stop ⟨48, 10000, 1000, 7, 0, 0⟩ (some 50) =
      ⟨none, ⟨16, 10000, 1000, 180, 0, 0⟩,
        [Event.wAcceleration 180, Event.wResetBits 32]⟩ ∧
    stop ⟨40, 10000, 1000, 7, 0, 0⟩ (some 50) =
      ⟨none, ⟨8, 10000, 1000, 7, 0, 0⟩, [Event.wResetBits 32]⟩ ∧
    stop ⟨48, 10000, 1000, 7, 0, 0⟩ none =
      ⟨none, ⟨16, 10000, 1000, 7, 0, 0⟩, [Event.wResetBits 32]⟩ := by
  refine ⟨?_, ?_, ?_⟩
  · have h := (stop_spec ⟨48, 10000, 1000, 7, 0, 0⟩ 50).1 180 (by decide)
      (by norm_num [calculateAccelerationFromSteps])
    exact h.trans (by decide)
  · have h := (stop_spec ⟨40, 10000, 1000, 7, 0, 0⟩ 50).2.1 (by decide)
    exact h.trans (by decide)
  · have h := (stop_spec ⟨48, 10000, 1000, 7, 0, 0⟩ 50).2.2
    exact h.trans (by decide)

/-- Claim C8: for valid inputs with a start speed faster than the soll
speed (prescalerStart 1000 below prescalerSoll 10000, all arguments at
least 1), calculateAccelerationFromSteps yields the negative value
-180, and initMotor passes it unguarded to the unsigned 32-bit
acceleration register write, where it silently wraps modulo 2^32 to
4294967116: no validation or rejection of the non-positive case occurs
anywhere on the path (the call succeeds with no error). -/
theorem negative_acceleration_unguarded :
    calculateAccelerationFromSteps 1000 10000 50 = .ok (-180) ∧
    (-180 : ℤ) < 0 ∧
    ((-180 : ℤ) % 2 ^ 32).toNat = 4294967116 ∧
    (initMotor 1000000 ⟨0, 0, 0, 0, 0, 0⟩ RunMode.STEPPING 1000 100 50 0
      Direction.CLOCKWISE StepMode.FULL_STEPS PhaseMode.TWO_PHASE).err = none ∧
    Event.wAcceleration 4294967116 ∈
      (initMotor 1000000 ⟨0, 0, 0, 0, 0, 0⟩ RunMode.STEPPING 1000 100 50 0
        Direction.CLOCKWISE StepMode.FULL_STEPS PhaseMode.TWO_PHASE).trace ∧
    (initMotor 1000000 ⟨0, 0, 0, 0, 0, 0⟩ RunMode.STEPPING 1000 100 50 0
      Direction.CLOCKWISE StepMode.FULL_STEPS PhaseMode.TWO_PHASE).state.acceleration =
      4294967116 := by
  have h1 : calculatePrescaler 1000000 1000 = .ok 1000 := by
    norm_num [calculatePrescaler] <;> decide
  have h2 : calculatePrescaler 1000000 100 = .ok 10000 := by
    norm_num [calculatePrescaler] <;> decide
  have h3 : calculateAccelerationFromSteps 1000 10000 50 = .ok (-180) := by
    norm_num [calculateAccelerationFromSteps, Int.ceil_neg]
  have hrun : initMotor 1000000 ⟨0, 0, 0, 0, 0, 0⟩ RunMode.STEPPING 1000 100 50 0
      Direction.CLOCKWISE StepMode.FULL_STEPS PhaseMode.TWO_PHASE =
      ⟨none, ⟨15, 1000, 10000, 4294967116, 0, 0⟩,
        [Event.wSetBits 8, Event.wResetBits 16, Event.wPrescalerStart 1000,
         Event.wPrescalerTop 10000, Event.wAcceleration 4294967116,
         Event.wStepsToDo 0, Event.wSetBits 1, Event.wSetBits 2, Event.wSetBits 4]⟩ := by
    simp only [initMotor, h1, h2, Nat.cast_ofNat, h3]
    decide
  exact ⟨h3, by norm_num, by decide, by rw [hrun], by rw [hrun]; decide, by rw [hrun]⟩

/-- Claim C9: initMotor and updateSpeeds perform all argument validation
and unit conversion before issuing their first register write: whenever
a speed is not positive or the acceleration step count is below 1, both
operations fail, issue no register write, and leave every motor
register exactly as it was before the call. -/
theorem arg_error_atomicity (BC : ℕ) (s : ChannelState) (runMode : RunMode)
    (startSpeed sollSpeed acc_steps : ℚ) (steppsToDo : ℕ) (direction : Direction)
    (stepMode : StepMode) (phaseMode : PhaseMode)
    (h : startSpeed ≤ 0 ∨ sollSpeed ≤ 0 ∨ acc_steps < 1) :
    ((initMotor BC s runMode startSpeed sollSpeed acc_steps steppsToDo direction
        stepMode phaseMode).err.isSome = true ∧
      (initMotor BC s runMode startSpeed sollSpeed acc_steps steppsToDo direction
        stepMode phaseMode).state = s ∧
      (initMotor BC s runMode startSpeed sollSpeed acc_steps steppsToDo direction
        stepMode phaseMode).trace = []) ∧
    ((updateSpeeds BC s startSpeed sollSpeed acc_steps).err.isSome = true ∧
      (updateSpeeds BC s startSpeed sollSpeed acc_steps).state = s ∧
      (updateSpeeds BC s startSpeed sollSpeed acc_steps).trace = []) := by
  by_cases hrun : isMotorRunning s
  · constructor <;> simp [initMotor, updateSpeeds, hrun]
  · by_cases h1 : startSpeed ≤ 0
    · have hot1 : calculatePrescaler BC startSpeed = .error .invalidArgument := by
        simp [calculatePrescaler, h1]
      constructor <;> simp [initMotor, updateSpeeds, hrun, hot1]
    · obtain ⟨p1, hp1, hp1ge⟩ := calculatePrescaler_pos BC startSpeed h1
      by_cases h2 : sollSpeed ≤ 0
      · have hot2 : calculatePrescaler BC sollSpeed = .error .invalidArgument := by
          simp [calculatePrescaler, h2]
        constructor <;> simp [initMotor, updateSpeeds, hrun, hp1, hot2]
      · obtain ⟨p2, hp2, hp2ge⟩ := calculatePrescaler_pos BC sollSpeed h2
        have h3 : acc_steps < 1 := by tauto
        have hacc : calculateAccelerationFromSteps (p1 : ℤ) (p2 : ℤ) acc_steps =
            .error .invalidArgument := by
          simp [calculateAccelerationFromSteps, h3]
        constructor <;> simp [initMotor, updateSpeeds, hrun, hp1, hp2, hacc]

/-- Claim C9 witness: with soll speed -5 on a stopped channel, both
initMotor and updateSpeeds fail and leave the state unchanged with no
register write. -/
theorem arg_error_atomicity_witness :
    ((100 : ℚ) ≤ 0 ∨ (-5 : ℚ) ≤ 0 ∨ (50 : ℚ) < 1) ∧
    (initMotor 1000000 ⟨0, 1, 2, 3, 4, 5⟩ RunMode.STEPPING 100 (-5) 50 0
      Direction.CLOCKWISE StepMode.FULL_STEPS PhaseMode.TWO_PHASE).err.isSome = true ∧
    (initMotor 1000000 ⟨0, 1, 2, 3, 4, 5⟩ RunMode.STEPPING 100 (-5) 50 0
      Direction.CLOCKWISE StepMode.FULL_STEPS PhaseMode.TWO_PHASE).state = ⟨0, 1, 2, 3, 4, 5⟩ ∧
    (initMotor 1000000 ⟨0, 1, 2, 3, 4, 5⟩ RunMode.STEPPING 100 (-5) 50 0
      Direction.CLOCKWISE StepMode.FULL_STEPS PhaseMode.TWO_PHASE).trace = [] ∧
    (updateSpeeds 1000000 ⟨0, 1, 2, 3, 4, 5⟩ 100 (-5) 50).err.isSome = true ∧
    (updateSpeeds 1000000 ⟨0, 1, 2, 3, 4, 5⟩ 100 (-5) 50).state = ⟨0, 1, 2, 3, 4, 5⟩ ∧
    (updateSpeeds 1000000 ⟨0, 1, 2, 3, 4, 5⟩ 100 (-5) 50).trace = [] := by
  have h := arg_error_atomicity 1000000 ⟨0, 1, 2, 3, 4, 5⟩ RunMode.STEPPING 100 (-5) 50 0
    Direction.CLOCKWISE StepMode.FULL_STEPS PhaseMode.TWO_PHASE
    (Or.inr (Or.inl (by norm_num)))
  exact ⟨Or.inr (Or.inl (by norm_num)), h.1.1, h.1.2.1, h.1.2.2, h.2.1, h.2.2.1, h.2.2.2⟩

/-- Claim C1: initMotor requires the channel to be stopped and fails
with illegalState when the motor is running, leaving all registers
unwritten; when the channel is stopped it computes the start and soll
prescalers and the raw acceleration, then writes run mode (one or two
atomic operations on the run-mode bits), start prescaler, soll
prescaler, acceleration, steps-to-do, direction, step mode, phase mode,
in exactly that order, and afterwards the channel is still stopped
(isMotorRunning returns false). -/
theorem initMotor_spec (BC : ℕ) (s : ChannelState) (runMode : RunMode)
    (startSpeed sollSpeed acc_steps : ℚ) (steppsToDo : ℕ) (direction : Direction)
    (stepMode : StepMode) (phaseMode : PhaseMode) :
    (isMotorRunning s = true →
      initMotor BC s runMode startSpeed sollSpeed acc_steps steppsToDo direction
        stepMode phaseMode = ⟨some .illegalState, s, []⟩) ∧
    (isMotorRunning s = false → runMode ≠ RunMode.RESERVED → ∀ p1 p2 a,
      calculatePrescaler BC startSpeed = .ok p1 →
      calculatePrescaler BC sollSpeed = .ok p2 →
      calculateAccelerationFromSteps (p1 : ℤ) (p2 : ℤ) acc_steps = .ok a →
      (initMotor BC s runMode startSpeed sollSpeed acc_steps steppsToDo direction
        stepMode phaseMode).err = none ∧
      (initMotor BC s runMode startSpeed sollSpeed acc_steps steppsToDo direction
        stepMode phaseMode).trace =
        (setRunMode s runMode).trace ++
          [Event.wPrescalerStart (p1 % 2 ^ 32), Event.wPrescalerTop (p2 % 2 ^ 32),
           Event.wAcceleration ((a % (2 ^ 32 : ℤ)).toNat),
           Event.wStepsToDo (steppsToDo % 2 ^ 32),
           (if direction = Direction.CLOCKWISE then Event.wSetBits 1 else Event.wResetBits 1),
           (if stepMode = StepMode.FULL_STEPS then Event.wSetBits 2 else Event.wResetBits 2),
           (if phaseMode = PhaseMode.ONE_PHASE then Event.wResetBits 4
            else Event.wSetBits 4)] ∧
      (∀ e ∈ (setRunMode s runMode).trace, eventField e = RegField.runModeF) ∧
      isMotorRunning (initMotor BC s runMode startSpeed sollSpeed acc_steps steppsToDo
        direction stepMode phaseMode).state = false) := by
  constructor
  · intro h
    simp [initMotor, h]
  · intro hrun hm p1 p2 a h1 h2 h3
    have hb5 : s.confReg.testBit 5 = false := by
      rw [← isMotorRunning_eq_testBit]
      exact hrun
    have tb1 : (1 : ℕ).testBit 5 = false := by decide
    have tb2 : (2 : ℕ).testBit 5 = false := by decide
    have tb4 : (4 : ℕ).testBit 5 = false := by decide
    have tb8 : (8 : ℕ).testBit 5 = false := by decide
    have tb16 : (16 : ℕ).testBit 5 = false := by decide
    have tb24 : (24 : ℕ).testBit 5 = false := by decide
    have tk8 : (4294967287 : ℕ).testBit 5 = true := by decide
    have tk16 : (4294967279 : ℕ).testBit 5 = true := by decide
    have tk24 : (4294967271 : ℕ).testBit 5 = true := by decide
    cases runMode with
    | RESERVED => exact absurd rfl hm
    | DISABLED =>
      have hsrm : setRunMode s RunMode.DISABLED =
          ⟨none, { s with confReg := confResetBits s.confReg 24 }, [Event.wResetBits 24]⟩ := by
        simp [setRunMode, setTwoBits, RunMode.val, liftW, resetBitsAtomicRaw,
          LocalConfReg.RUN_MODE_0, LocalConfReg.RUN_MODE_1]
      cases direction <;> cases stepMode <;> cases phaseMode <;>
        · simp [initMotor, hrun, h1, h2, h3, hsrm, setDirection, setStepMode, setPhaseMode,
            setStepsToDo, setBit, Direction.val, StepMode.val, PhaseMode.val, liftW,
            MotorResult.andThen, setStartSpeedRaw, setSollSpeedRaw, setAccelerationRaw,
            setStepsToDoRaw, setBitsAtomicRaw, resetBitsAtomicRaw, LocalConfReg.DIRECTION,
            LocalConfReg.STEP_MODE, LocalConfReg.PHASE_MODE, LocalConfReg.RUN_MODE_0,
            LocalConfReg.RUN_MODE_1, LocalConfReg.START, LocalConfReg.RESET_STEPS,
            eventField, maskField, isMotorRunning_eq_testBit, testBit_confSetBits,
            testBit_confResetBits, hb5, tb1, tb2, tb4, tb8, tb16, tb24, tk8, tk16, tk24]
    | STEPPING =>
      have hsrm : setRunMode s RunMode.STEPPING =
          ⟨none, { s with confReg := confResetBits (confSetBits s.confReg 8) 16 },
            [Event.wSetBits 8, Event.wResetBits 16]⟩ := by
        simp [setRunMode, setTwoBits, RunMode.val, liftW, MotorResult.andThen,
          setBitsAtomicRaw, resetBitsAtomicRaw,
          LocalConfReg.RUN_MODE_0, LocalConfReg.RUN_MODE_1]
      cases direction <;> cases stepMode <;> cases phaseMode <;>
        · simp [initMotor, hrun, h1, h2, h3, hsrm, setDirection, setStepMode, setPhaseMode,
            setStepsToDo, setBit, Direction.val, StepMode.val, PhaseMode.val, liftW,
            MotorResult.andThen, setStartSpeedRaw, setSollSpeedRaw, setAccelerationRaw,
            setStepsToDoRaw, setBitsAtomicRaw, resetBitsAtomicRaw, LocalConfReg.DIRECTION,
            LocalConfReg.STEP_MODE, LocalConfReg.PHASE_MODE, LocalConfReg.RUN_MODE_0,
            LocalConfReg.RUN_MODE_1, LocalConfReg.START, LocalConfReg.RESET_STEPS,
            eventField, maskField, isMotorRunning_eq_testBit, testBit_confSetBits,
            testBit_confResetBits, hb5, tb1, tb2, tb4, tb8, tb16, tb24, tk8, tk16, tk24]
    | FIXED_SPEED =>
      have hsrm : setRunMode s RunMode.FIXED_SPEED =
          ⟨none, { s with confReg := confSetBits (confResetBits s.confReg 8) 16 },
            [Event.wResetBits 8, Event.wSetBits 16]⟩ := by
        simp [setRunMode, setTwoBits, RunMode.val, liftW, MotorResult.andThen,
          setBitsAtomicRaw, resetBitsAtomicRaw,
          LocalConfReg.RUN_MODE_0, LocalConfReg.RUN_MODE_1]
      cases direction <;> cases stepMode <;> cases phaseMode <;>
        · simp [initMotor, hrun, h1, h2, h3, hsrm, setDirection, setStepMode, setPhaseMode,
            setStepsToDo, setBit, Direction.val, StepMode.val, PhaseMode.val, liftW,
            MotorResult.andThen, setStartSpeedRaw, setSollSpeedRaw, setAccelerationRaw,
            setStepsToDoRaw, setBitsAtomicRaw, resetBitsAtomicRaw, LocalConfReg.DIRECTION,
            LocalConfReg.STEP_MODE, LocalConfReg.PHASE_MODE, LocalConfReg.RUN_MODE_0,
            LocalConfReg.RUN_MODE_1, LocalConfReg.START, LocalConfReg.RESET_STEPS,
            eventField, maskField, isMotorRunning_eq_testBit, testBit_confSetBits,
            testBit_confResetBits, hb5, tb1, tb2, tb4, tb8, tb16, tb24, tk8, tk16, tk24]

/-- Claim C1 witness: a running channel (start bit set) rejects the
call with state and registers untouched; a stopped channel accepts the
same call, issues the writes in the claimed order, and is still stopped
afterwards. -/
theorem initMotor_spec_witness :
    initMotor 1000000 ⟨32, 0, 0, 0, 0, 0⟩ RunMode.STEPPING 100 1000 50 200
      Direction.CLOCKWISE StepMode.FULL_STEPS PhaseMode.TWO_PHASE =
      ⟨some .illegalState, ⟨32, 0, 0, 0, 0, 0⟩, []⟩ ∧
    (initMotor 1000000 ⟨0, 0, 0, 0, 0, 0⟩ RunMode.STEPPING 100 1000 50 200
      Direction.CLOCKWISE StepMode.FULL_STEPS PhaseMode.TWO_PHASE).err = none ∧
    (initMotor 1000000 ⟨0, 0, 0, 0, 0, 0⟩ RunMode.STEPPING 100 1000 50 200
      Direction.CLOCKWISE StepMode.FULL_STEPS PhaseMode.TWO_PHASE).trace =
      [Event.wSetBits 8, Event.wResetBits 16, Event.wPrescalerStart 10000,
       Event.wPrescalerTop 1000, Event.wAcceleration 180, Event.wStepsToDo 200,
       Event.wSetBits 1, Event.wSetBits 2, Event.wSetBits 4] ∧
    isMotorRunning (initMotor 1000000 ⟨0, 0, 0, 0, 0, 0⟩ RunMode.STEPPING 100 1000 50 200
      Direction.CLOCKWISE StepMode.FULL_STEPS PhaseMode.TWO_PHASE).state = false := by
  have h := (initMotor_spec 1000000 ⟨0, 0, 0, 0, 0, 0⟩ RunMode.STEPPING 100 1000 50 200
    Direction.CLOCKWISE StepMode.FULL_STEPS PhaseMode.TWO_PHASE).2 (by decide) (by decide)
    10000 1000 180 (by norm_num [calculatePrescaler] <;> decide)
    (by norm_num [calculatePrescaler] <;> decide)
    (by norm_num [calculateAccelerationFromSteps] <;> decide)
  exact ⟨(initMotor_spec 1000000 ⟨32, 0, 0, 0, 0, 0⟩ RunMode.STEPPING 100 1000 50 200
      Direction.CLOCKWISE StepMode.FULL_STEPS PhaseMode.TWO_PHASE).1 (by decide),
    h.1, h.2.1.trans (by decide), h.2.2.2⟩

end FlinkStepperMotor
